import Mathlib

/-
Verification of the PyArchiver core (src/main.py): the SizeParser
(`parse_size`), the FilterEngine (`should_archive`) and the per-folder
archive orchestration (`archive_folder`).

Modelling conventions:
- Byte counts and timestamps are `Int` (seconds for times); a day is 86400
  seconds, matching `timedelta(days=d)`.
- A Python exception escaping a call is modelled by `Option`/an error value:
  `parse_size` returns `none` where CPython's `int` raises `ValueError`;
  an unreadable `os.stat` is modelled by passing `none` for the metadata.
- The audit sink is modelled by returning the list of emitted events.
- `re.search` is modelled by an abstract total predicate on the filename
  carried inside the filter set.
- Filesystem mutation is modelled by the list of file names moved into the
  destination directory; directory creation success and per-file move success
  are explicit oracle inputs.
-/

namespace PyArchiver

/-- Python `str.upper()` (ASCII-faithful). -/
def pyUpper (s : String) : String := ⟨s.data.map Char.toUpper⟩

/-- Python `str.lower()` (ASCII-faithful). -/
def pyLower (s : String) : String := ⟨s.data.map Char.toLower⟩

/-- Whitespace stripping on a character list, both ends. -/
def stripChars (cs : List Char) : List Char :=
  ((cs.dropWhile Char.isWhitespace).reverse.dropWhile Char.isWhitespace).reverse

/-- Python `str.strip()`. -/
def pyStrip (s : String) : String := ⟨stripChars s.data⟩

/-- Python `str.endswith(suf)`. -/
def strEndsWith (s suf : String) : Bool := suf.data.isSuffixOf s.data

/-- Python slicing `s[:-n]` for `0 < n ≤ len s`. -/
def strDropRight (s : String) (n : Nat) : String :=
  ⟨s.data.take (s.data.length - n)⟩

/-- Validity of the digit run of a Python integer literal: one or more
decimal digits, with single underscores allowed only between digits
(CPython `int` accepts "1_000" but not "1__0", "_1" or "1_"). -/
def pyDigitsOk : List Char → Bool
  | [] => false
  | [c] => c.isDigit
  | c :: '_' :: rest => c.isDigit && pyDigitsOk rest
  | c :: c2 :: rest => c.isDigit && pyDigitsOk (c2 :: rest)

/-- Numeric value of a run of decimal digit characters. -/
def digitsVal (cs : List Char) : Nat :=
  cs.foldl (fun a c => a * 10 + (c.toNat - 48)) 0

/-- Sign and digit-run parsing of a Python integer literal, applied after
whitespace stripping: an optional single sign may precede the digits, and
underscores may separate digit groups. -/
def pyIntChars : List Char → Option Int
  | '+' :: rest =>
      if pyDigitsOk rest then some (digitsVal (rest.filter (fun c => c != '_')))
      else none
  | '-' :: rest =>
      if pyDigitsOk rest then
        some (-(digitsVal (rest.filter (fun c => c != '_')) : Int))
      else none
  | cs =>
      if pyDigitsOk cs then some (digitsVal (cs.filter (fun c => c != '_')))
      else none

/-- Model of CPython `int(s)` on the strings reaching it in `parse_size`:
surrounding whitespace is ignored, an optional single sign may precede the
digits, and underscores may separate digit groups. `none` models the
`ValueError` raised on any other input. -/
def pyInt (s : String) : Option Int :=
  pyIntChars (stripChars s.data)

/-- `parse_size` from src/main.py lines 178-190: empty (falsy) input is 0;
otherwise upper-case and strip, then apply a KB/MB/GB suffix as a power of
1024 to the leading integer, or read the whole string as a raw byte count.
`none` models the `ValueError` (InvalidSizeFormat) raised by `int`. -/
def parse_size (size_str : String) : Option Int :=
  if size_str = "" then some 0
  else
    let s := pyStrip (pyUpper size_str)
    if strEndsWith s "KB" then
      (pyInt (strDropRight s 2)).map (fun n => n * 1024)
    else if strEndsWith s "MB" then
      (pyInt (strDropRight s 2)).map (fun n => n * 1024 * 1024)
    else if strEndsWith s "GB" then
      (pyInt (strDropRight s 2)).map (fun n => n * 1024 * 1024 * 1024)
    else pyInt s

/-- The extension part of `os.path.splitext(name)`: the suffix starting at
the last dot, except that a dot inside the leading run of dots starts no
extension (so ".bashrc" has extension ""). -/
def splitextExt (name : String) : String :=
  let cs := name.data
  let lead := cs.takeWhile (fun c => c == '.')
  let rest := cs.drop lead.length
  if rest.contains '.' then
    ⟨'.' :: (rest.reverse.takeWhile (fun c => c != '.')).reverse⟩
  else ""

/-- Python's `sub in s` substring containment test. -/
def strContains (s sub : String) : Bool :=
  s.data.tails.any (fun t => sub.data.isPrefixOf t)

/-- Result of a successful `os.stat` call: the metadata `should_archive`
reads (size in bytes, st_mtime and st_ctime in seconds). -/
structure FileStat where
  size : Int
  mtime : Int
  ctime : Int
deriving DecidableEq

/-- The filters dictionary built by ArchiveConfig: every key is optional;
`size_limit` and `min_size` hold the raw human-readable strings, parsed only
inside `should_archive`. `regex` abstracts `re.search(pattern, ·)` as a
total predicate on the filename. -/
structure FilterSet where
  extensions : Option (List String) := none
  size_limit : Option String := none
  min_size : Option String := none
  modified_days : Option Int := none
  created_days : Option Int := none
  regex : Option (String → Bool) := none
  exclude : Option (List String) := none

/-- Audit event status values used by the core. -/
inductive Status where
  | STARTED | SUCCESS | SKIPPED | FAILED | ERROR | COMPLETED
deriving DecidableEq

/-- Tag for the free-text message of a FILTER_CHECK audit event: which
constraint produced the rejection, or `evalError` for the blanket
`except` handler of `should_archive`. -/
inductive Reason where
  | extension
  | size_limit
  | min_size
  | modified
  | created
  | regex
  | exclude (pattern : String)
  | evalError
deriving DecidableEq

/-- One record handed to the audit logger: action tag, target path, status,
and the reason tag carried by the message (none for folder-level events). -/
structure Event where
  action : String
  target : String
  status : Status
  reason : Option Reason
deriving DecidableEq

/-- Extension check, src/main.py lines 200-207: reject when the file has no
extension or its lower-cased extension is not among the lower-cased allowed
extensions; skipped when the filter is absent. -/
def checkExt (filename : String) (filters : FilterSet) : Option Reason :=
  match filters.extensions with
  | none => none
  | some exts =>
    let file_ext := pyLower (splitextExt filename)
    let allowed_ext := exts.map pyLower
    if file_ext == "" || !(allowed_ext.contains file_ext) then
      some .extension
    else none

/-- Maximum-size check, lines 210-215: parse the limit string at evaluation
time (a parse failure escapes to the blanket handler, tag `evalError`),
reject when the file is strictly larger. -/
def checkSizeLimit (st : FileStat) (filters : FilterSet) : Option Reason :=
  match filters.size_limit with
  | none => none
  | some sl =>
    match parse_size sl with
    | none => some .evalError
    | some limit => if st.size > limit then some .size_limit else none

/-- Minimum-size check, lines 217-221: reject when the file is strictly
smaller than the parsed minimum. -/
def checkMinSize (st : FileStat) (filters : FilterSet) : Option Reason :=
  match filters.min_size with
  | none => none
  | some ms =>
    match parse_size ms with
    | none => some .evalError
    | some m => if st.size < m then some .min_size else none

/-- Modified-recency check, lines 227-234: `cutoff = now - days`; reject
when the modification time is more recent than the cutoff (the filter
selects files older than the threshold). -/
def checkModified (st : FileStat) (now : Int) (filters : FilterSet) :
    Option Reason :=
  match filters.modified_days with
  | none => none
  | some d => if st.mtime > now - d * 86400 then some .modified else none

/-- Created-recency check, lines 236-243: same inverted semantics on the
creation time. -/
def checkCreated (st : FileStat) (now : Int) (filters : FilterSet) :
    Option Reason :=
  match filters.created_days with
  | none => none
  | some d => if st.ctime > now - d * 86400 then some .created else none

/-- Name-pattern check, lines 246-250: reject when `re.search` finds no
match in the filename. -/
def checkRegex (filename : String) (filters : FilterSet) : Option Reason :=
  match filters.regex with
  | none => none
  | some search => if search filename then none else some .regex

/-- Exclude-substring check, lines 253-258: reject on the first configured
pattern, in list order, contained in the filename. -/
def checkExclude (filename : String) (filters : FilterSet) : Option Reason :=
  match filters.exclude with
  | none => none
  | some pats =>
    match pats.find? (fun p => strContains filename p) with
    | some p => some (.exclude p)
    | none => none

/-- The FILTER_CHECK audit event logged when a file is not admitted: every
in-line rejection logs status SKIPPED; the blanket `except` handler (reason
`evalError`) logs status ERROR. -/
def rejectEvent (filename : String) (r : Reason) : Event :=
  ⟨"FILTER_CHECK", filename, if r = .evalError then .ERROR else .SKIPPED,
   some r⟩

/-- `should_archive` from src/main.py lines 193-265.  `stat?` is the result
of `os.stat`: `none` models the call raising (file vanished, permission
denied), which the blanket `except` turns into a `False` verdict with an
ERROR event.  Returns the boolean verdict together with the audit events
emitted during this evaluation (the admit path emits none). -/
def should_archive (filename : String) (stat? : Option FileStat) (now : Int)
    (filters : FilterSet) : Bool × List Event :=
  match stat? with
  | none => (false, [rejectEvent filename .evalError])
  | some st =>
    match checkExt filename filters with
    | some r => (false, [rejectEvent filename r])
    | none =>
      match checkSizeLimit st filters with
      | some r => (false, [rejectEvent filename r])
      | none =>
        match checkMinSize st filters with
        | some r => (false, [rejectEvent filename r])
        | none =>
          match checkModified st now filters with
          | some r => (false, [rejectEvent filename r])
          | none =>
            match checkCreated st now filters with
            | some r => (false, [rejectEvent filename r])
            | none =>
              match checkRegex filename filters with
              | some r => (false, [rejectEvent filename r])
              | none =>
                match checkExclude filename filters with
                | some r => (false, [rejectEvent filename r])
                | none => (true, [])

/-- One direct child of the source folder as the orchestrator sees it:
its name, whether `os.path.isfile` holds, the metadata `os.stat` would
return (`none` when unreadable), and whether `shutil.move` would succeed. -/
structure Entry where
  name : String
  isFile : Bool
  stat? : Option FileStat
  moveOk : Bool
deriving DecidableEq

/-- The three per-folder counters of `archive_folder`. -/
structure FolderResult where
  processed : Nat
  skipped : Nat
  failed : Nat
deriving DecidableEq

/-- Accumulated state of the per-file loop: counters, audit events emitted
so far, and the names moved into the destination directory so far. -/
structure StepState where
  res : FolderResult
  events : List Event
  moved : List String
deriving DecidableEq

/-- Componentwise sum of counters. -/
def FolderResult.add (a b : FolderResult) : FolderResult :=
  ⟨a.processed + b.processed, a.skipped + b.skipped, a.failed + b.failed⟩

/-- Concatenation of two loop states. -/
def StepState.merge (a b : StepState) : StepState :=
  ⟨a.res.add b.res, a.events ++ b.events, a.moved ++ b.moved⟩

/-- The loop state before any file is handled. -/
def emptyState : StepState := ⟨⟨0, 0, 0⟩, [], []⟩

/-- The body of the per-file loop of `archive_folder`, lines 298-319.
Non-files are ignored.  In dry-run mode `processed` is incremented without
consulting the filters and without touching the filesystem.  Otherwise the
verdict of `should_archive` decides: admitted files are moved (`FILE_MOVE`
SUCCESS) or, when the move raises, counted failed (`FILE_MOVE` FAILED);
rejected files are counted skipped with no event beyond those the filter
evaluation already emitted. -/
def stepEntry (now : Int) (filters : FilterSet) (dryRun : Bool)
    (acc : StepState) (e : Entry) : StepState :=
  if e.isFile then
    if dryRun then
      { acc with res := { acc.res with processed := acc.res.processed + 1 } }
    else
      let v := should_archive e.name e.stat? now filters
      if v.1 then
        if e.moveOk then
          { res := { acc.res with processed := acc.res.processed + 1 },
            events := acc.events ++ v.2 ++
              [⟨"FILE_MOVE", e.name, .SUCCESS, none⟩],
            moved := acc.moved ++ [e.name] }
        else
          { res := { acc.res with failed := acc.res.failed + 1 },
            events := acc.events ++ v.2 ++
              [⟨"FILE_MOVE", e.name, .FAILED, none⟩],
            moved := acc.moved }
      else
        { acc with
            res := { acc.res with skipped := acc.res.skipped + 1 },
            events := acc.events ++ v.2 }
  else acc

/-- The whole per-file loop over the direct children of the source folder. -/
def processEntries (now : Int) (filters : FilterSet) (dryRun : Bool)
    (entries : List Entry) : StepState :=
  entries.foldl (stepEntry now filters dryRun) emptyState

/-- The source folder as `archive_folder` observes it: `missing` when
`os.path.exists` fails; otherwise whether `os.makedirs` of the destination
succeeds, and the directory listing. -/
inductive FolderInput where
  | missing
  | present (mkdirOk : Bool) (entries : List Entry)

/-- `archive_folder` from src/main.py lines 268-327.  Returns the boolean
the function returns, the final counters when the loop ran (`none` on the
two early aborts), the audit events in emission order, and the names moved
into the destination directory. -/
def archive_folder (sourcePath archivePath : String) (source : FolderInput)
    (now : Int) (filters : FilterSet) (dryRun : Bool) :
    Bool × Option FolderResult × List Event × List String :=
  match source with
  | .missing =>
      (false, none,
       [⟨"FOLDER_START", sourcePath, .STARTED, none⟩,
        ⟨"FOLDER_ERROR", sourcePath, .FAILED, none⟩], [])
  | .present mkdirOk entries =>
      if mkdirOk then
        let s := processEntries now filters dryRun entries
        (decide (s.res.processed > 0) || decide (s.res.failed = 0),
         some s.res,
         ⟨"FOLDER_START", sourcePath, .STARTED, none⟩ ::
           ⟨"FOLDER_CREATE", archivePath, .SUCCESS, none⟩ ::
           (s.events ++ [⟨"FOLDER_COMPLETE", sourcePath, .COMPLETED, none⟩]),
         s.moved)
      else
        (false, none,
         [⟨"FOLDER_START", sourcePath, .STARTED, none⟩,
          ⟨"FOLDER_CREATE", archivePath, .FAILED, none⟩], [])

/-! ### Spec-side definitions and helper lemmas -/

/-- The seven constraint checks of `should_archive` in the fixed source
order: extension, maximum size, minimum size, modified-recency,
created-recency, name pattern, exclude substrings. -/
def filterChecks (filename : String) (st : FileStat) (now : Int)
    (f : FilterSet) : List (Option Reason) :=
  [checkExt filename f, checkSizeLimit st f, checkMinSize st f,
   checkModified st now f, checkCreated st now f, checkRegex filename f,
   checkExclude filename f]

/-- Modelled from the spec's words: the first violated constraint in an
ordered list of check outcomes. -/
def firstViolation : List (Option Reason) → Option Reason
  | [] => none
  | some r :: _ => some r
  | none :: l => firstViolation l

/-- Every run of `should_archive` either admits with no events or rejects
with exactly the one event of its rejection reason. -/
theorem should_archive_shape (filename : String) (stat? : Option FileStat)
    (now : Int) (f : FilterSet) :
    should_archive filename stat? now f = (true, []) ∨
    ∃ r : Reason, should_archive filename stat? now f =
      (false, [rejectEvent filename r]) := by
  cases stat? with
  | none => exact Or.inr ⟨.evalError, rfl⟩
  | some st =>
    simp only [should_archive]
    cases checkExt filename f with
    | some r => exact Or.inr ⟨r, rfl⟩
    | none =>
      cases checkSizeLimit st f with
      | some r => exact Or.inr ⟨r, rfl⟩
      | none =>
        cases checkMinSize st f with
        | some r => exact Or.inr ⟨r, rfl⟩
        | none =>
          cases checkModified st now f with
          | some r => exact Or.inr ⟨r, rfl⟩
          | none =>
            cases checkCreated st now f with
            | some r => exact Or.inr ⟨r, rfl⟩
            | none =>
              cases checkRegex filename f with
              | some r => exact Or.inr ⟨r, rfl⟩
              | none =>
                cases checkExclude filename f with
                | some r => exact Or.inr ⟨r, rfl⟩
                | none => exact Or.inl rfl

/-- An admitted file emits no audit events. -/
theorem should_archive_admit_events (filename : String)
    (stat? : Option FileStat) (now : Int) (f : FilterSet)
    (h : (should_archive filename stat? now f).1 = true) :
    (should_archive filename stat? now f).2 = [] := by
  rcases should_archive_shape filename stat? now f with hs | ⟨r, hs⟩
  · rw [hs]
  · rw [hs] at h ⊢
    simp at h

/-! ### Claim theorems -/

/-- C2: `parse_size` trims whitespace, upper-cases its input, applies the
suffixes KB, MB, GB as powers of 1024 to the leading integer, and treats
suffix-less input as a raw byte count; `parse("10MB") = 10*1024*1024`,
`parse("500KB") = 500*1024`, `parse("2048") = 2048`, `parse("") = 0`; every
input whose remaining text is not a valid integer (such as "10XB") fails
with InvalidSizeFormat, modelled by `none`: the last four clauses cover the
KB-, MB-, GB-suffixed and suffix-less cases, which exhaust the non-empty
inputs in the order the source tests the suffixes. -/
theorem parse_size_spec :
    parse_size "10MB" = some (10 * 1024 * 1024) ∧
    parse_size "500KB" = some (500 * 1024) ∧
    parse_size "2048" = some 2048 ∧
    parse_size "" = some 0 ∧
    parse_size "10XB" = none ∧
    parse_size "3GB" = some (3 * 1024 * 1024 * 1024) ∧
    parse_size "10mb" = some (10 * 1024 * 1024) ∧
    parse_size " 2048 " = some 2048 ∧
    (∀ s : String, s ≠ "" →
      strEndsWith (pyStrip (pyUpper s)) "KB" = true →
      pyInt (strDropRight (pyStrip (pyUpper s)) 2) = none →
      parse_size s = none) ∧
    (∀ s : String, s ≠ "" →
      strEndsWith (pyStrip (pyUpper s)) "KB" = false →
      strEndsWith (pyStrip (pyUpper s)) "MB" = true →
      pyInt (strDropRight (pyStrip (pyUpper s)) 2) = none →
      parse_size s = none) ∧
    (∀ s : String, s ≠ "" →
      strEndsWith (pyStrip (pyUpper s)) "KB" = false →
      strEndsWith (pyStrip (pyUpper s)) "MB" = false →
      strEndsWith (pyStrip (pyUpper s)) "GB" = true →
      pyInt (strDropRight (pyStrip (pyUpper s)) 2) = none →
      parse_size s = none) ∧
    (∀ s : String, s ≠ "" →
      strEndsWith (pyStrip (pyUpper s)) "KB" = false →
      strEndsWith (pyStrip (pyUpper s)) "MB" = false →
      strEndsWith (pyStrip (pyUpper s)) "GB" = false →
      pyInt (pyStrip (pyUpper s)) = none →
      parse_size s = none) := by
  refine ⟨by decide, by decide, by decide, by decide, by decide, by decide,
    by decide, by decide, ?_, ?_, ?_, ?_⟩
  · intro s hne hkb hint
    simp [parse_size, hne, hkb, hint]
  · intro s hne hkb hmb hint
    simp [parse_size, hne, hkb, hmb, hint]
  · intro s hne hkb hmb hgb hint
    simp [parse_size, hne, hkb, hmb, hgb, hint]
  · intro s hne hkb hmb hgb hint
    simp [parse_size, hne, hkb, hmb, hgb, hint]

/-- Witness for C2: the malformed suffix-less input "10XB" and the
malformed MB-suffixed input "12XMB" each reach their failure clause of
`parse_size_spec`. -/
theorem parse_size_spec_witness :
    parse_size "10XB" = none ∧ parse_size "12XMB" = none :=
  ⟨parse_size_spec.2.2.2.2.2.2.2.2.2.2.2 "10XB" (by decide) (by decide)
      (by decide) (by decide) (by decide),
   parse_size_spec.2.2.2.2.2.2.2.2.2.1 "12XMB" (by decide) (by decide)
      (by decide) (by decide)⟩

/-- C3: `should_archive` on readable metadata checks the present constraints
in the fixed order extension, maximum size, minimum size, modified-recency,
created-recency, name pattern, exclude substrings; the first violated
constraint alone determines the rejection's reason, absent constraints are
skipped (their check yields no violation), and a file violating none is
admitted. -/
theorem should_archive_first_violation (filename : String) (st : FileStat)
    (now : Int) (f : FilterSet) :
    (should_archive filename (some st) now f =
      match firstViolation (filterChecks filename st now f) with
      | none => (true, [])
      | some r => (false, [rejectEvent filename r])) ∧
    (f.extensions = none → checkExt filename f = none) ∧
    (f.size_limit = none → checkSizeLimit st f = none) ∧
    (f.min_size = none → checkMinSize st f = none) ∧
    (f.modified_days = none → checkModified st now f = none) ∧
    (f.created_days = none → checkCreated st now f = none) ∧
    (f.regex = none → checkRegex filename f = none) ∧
    (f.exclude = none → checkExclude filename f = none) := by
  refine ⟨?_, fun h => by simp [checkExt, h], fun h => by simp [checkSizeLimit, h],
    fun h => by simp [checkMinSize, h], fun h => by simp [checkModified, h],
    fun h => by simp [checkCreated, h], fun h => by simp [checkRegex, h],
    fun h => by simp [checkExclude, h]⟩
  simp only [should_archive, filterChecks]
  cases checkExt filename f with
  | some r => rfl
  | none =>
    cases checkSizeLimit st f with
    | some r => rfl
    | none =>
      cases checkMinSize st f with
      | some r => rfl
      | none =>
        cases checkModified st now f with
        | some r => rfl
        | none =>
          cases checkCreated st now f with
          | some r => rfl
          | none =>
            cases checkRegex filename f with
            | some r => rfl
            | none =>
              cases checkExclude filename f with
              | some r => rfl
              | none => rfl

/-- Witness for C3: a file violating no present constraint is admitted, and
an absent extension filter skips its check. -/
theorem should_archive_first_violation_witness :
    should_archive "a.txt" (some ⟨100, 0, 0⟩) 0 {} = (true, []) ∧
    checkExt "a.txt" {} = none :=
  ⟨(should_archive_first_violation "a.txt" ⟨100, 0, 0⟩ 0 {}).1.trans (by decide),
   (should_archive_first_violation "a.txt" ⟨100, 0, 0⟩ 0 {}).2.1 rfl⟩

/-- C4: with `modified_days = d` present, a file whose modification time is
more recent than `now` minus `d` days is rejected (reason: modified
recently), and a file modified at or before that threshold passes the check
(and here, with no other filter present, is admitted); the created-recency
check has the same inverted semantics on the creation time. -/
theorem recency_filters_inverted (filename : String) (now d : Int)
    (st : FileStat) :
    (st.mtime > now - d * 86400 →
      should_archive filename (some st) now { modified_days := some d } =
        (false, [rejectEvent filename .modified])) ∧
    (st.mtime ≤ now - d * 86400 →
      should_archive filename (some st) now { modified_days := some d } =
        (true, [])) ∧
    (st.ctime > now - d * 86400 →
      should_archive filename (some st) now { created_days := some d } =
        (false, [rejectEvent filename .created])) ∧
    (st.ctime ≤ now - d * 86400 →
      should_archive filename (some st) now { created_days := some d } =
        (true, [])) := by
  refine ⟨fun h => ?_, fun h => ?_, fun h => ?_, fun h => ?_⟩
  · simp [should_archive, checkExt, checkSizeLimit, checkMinSize,
      checkModified, checkCreated, checkRegex, checkExclude, h]
  · simp [should_archive, checkExt, checkSizeLimit, checkMinSize,
      checkModified, checkCreated, checkRegex, checkExclude, not_lt.mpr h]
  · simp [should_archive, checkExt, checkSizeLimit, checkMinSize,
      checkModified, checkCreated, checkRegex, checkExclude, h]
  · simp [should_archive, checkExt, checkSizeLimit, checkMinSize,
      checkModified, checkCreated, checkRegex, checkExclude, not_lt.mpr h]

/-- Witness for C4: with `modified_days = 7`, a file modified one hour ago
(at `now - 3600`) is rejected, and a file modified ten days ago (at
`now - 864000`) is admitted. -/
theorem recency_filters_inverted_witness :
    should_archive "a.txt" (some ⟨100, 996400, 996400⟩) 1000000
        { modified_days := some 7 } =
      (false, [rejectEvent "a.txt" .modified]) ∧
    should_archive "a.txt" (some ⟨100, 136000, 136000⟩) 1000000
        { modified_days := some 7 } =
      (true, []) :=
  ⟨(recency_filters_inverted "a.txt" 1000000 7 ⟨100, 996400, 996400⟩).1
      (by decide),
   (recency_filters_inverted "a.txt" 1000000 7 ⟨100, 136000, 136000⟩).2.1
      (by decide)⟩

/-- C6: a malformed `size_limit` or `min_size` string makes `parse_size`
report failure to its caller (`none`, never a default byte count), and when
the size check is reached during evaluation the failure is not silently
swallowed: the file is rejected and the single audit event carries status
ERROR with the evaluation-failure message, never an ordinary SKIPPED. -/
theorem malformed_size_surfaced (filename : String) (st : FileStat)
    (now : Int) (f : FilterSet) (hext : checkExt filename f = none) :
    (∀ sl : String, f.size_limit = some sl → parse_size sl = none →
      should_archive filename (some st) now f =
        (false, [⟨"FILTER_CHECK", filename, .ERROR, some .evalError⟩])) ∧
    (∀ ms : String, f.size_limit = none → f.min_size = some ms →
      parse_size ms = none →
      should_archive filename (some st) now f =
        (false, [⟨"FILTER_CHECK", filename, .ERROR, some .evalError⟩])) := by
  constructor
  · intro sl hsl hparse
    simp [should_archive, hext, checkSizeLimit, hsl, hparse, rejectEvent]
  · intro ms hsl hms hparse
    simp [should_archive, hext, checkSizeLimit, hsl, checkMinSize, hms,
      hparse, rejectEvent]

/-- Witness for C6: the malformed limit "10XB" yields an ERROR-status
rejection. -/
theorem malformed_size_surfaced_witness :
    should_archive "a.txt" (some ⟨100, 0, 0⟩) 0 { size_limit := some "10XB" } =
      (false, [⟨"FILTER_CHECK", "a.txt", .ERROR, some .evalError⟩]) :=
  (malformed_size_surfaced "a.txt" ⟨100, 0, 0⟩ 0 { size_limit := some "10XB" }
      (by decide)).1 "10XB" rfl (by decide)

/-- C7: when the file's metadata cannot be read (`os.stat` raises), the
verdict is a rejection whose single audit event has status ERROR, while
every event of an ordinary filter rejection (any reason other than the
evaluation-failure tag) has status SKIPPED; the orchestrator counts such a
file as skipped. -/
theorem unreadable_metadata_is_error (filename : String) (now : Int)
    (f : FilterSet) :
    (should_archive filename none now f =
      (false, [⟨"FILTER_CHECK", filename, .ERROR, some .evalError⟩])) ∧
    (∀ r : Reason, r ≠ .evalError →
      rejectEvent filename r = ⟨"FILTER_CHECK", filename, .SKIPPED, some r⟩) ∧
    (∀ (mOk : Bool) (acc : StepState),
      stepEntry now f false acc ⟨filename, true, none, mOk⟩ =
        { acc with
            res := { acc.res with skipped := acc.res.skipped + 1 },
            events := acc.events ++
              [⟨"FILTER_CHECK", filename, .ERROR, some .evalError⟩] }) := by
  refine ⟨by simp [should_archive, rejectEvent], fun r hr => ?_,
    fun mOk acc => ?_⟩
  · simp [rejectEvent, hr]
  · simp [stepEntry, should_archive, rejectEvent]

/-- Witness for C7: a normal extension rejection is SKIPPED while the
unreadable-metadata rejection is ERROR, and the loop counts the latter as
skipped. -/
theorem unreadable_metadata_is_error_witness :
    rejectEvent "a.txt" .extension =
      ⟨"FILTER_CHECK", "a.txt", .SKIPPED, some .extension⟩ ∧
    stepEntry 0 {} false emptyState ⟨"a.txt", true, none, true⟩ =
      ⟨⟨0, 1, 0⟩, [⟨"FILTER_CHECK", "a.txt", .ERROR, some .evalError⟩], []⟩ :=
  ⟨(unreadable_metadata_is_error "a.txt" 0 {}).2.1 .extension (by decide),
   ((unreadable_metadata_is_error "a.txt" 0 {}).2.2 true emptyState).trans
     (by decide)⟩

/-- C8 as stated is false: an admitted file emits zero audit events, not
one.  With an extension filter present, "a.txt" is evaluated, admitted, and
the emitted event list is empty. -/
theorem admit_emits_no_event_counterexample :
    should_archive "a.txt" (some ⟨100, 0, 0⟩) 0
        { extensions := some [".txt"] } = (true, []) ∧
    (should_archive "a.txt" (some ⟨100, 0, 0⟩) 0
        { extensions := some [".txt"] }).2.length = 0 ∧
    (0 : Nat) ≠ 1 := by
  refine ⟨by decide, by decide, by decide⟩

/-- C8 amended: `should_archive` emits exactly one audit event when the file
is rejected (including evaluation errors) and none when it is admitted; its
only effect besides the verdict is this event emission (the model returns
the complete list of emitted events). -/
theorem one_event_per_rejection (filename : String) (stat? : Option FileStat)
    (now : Int) (f : FilterSet) :
    ((should_archive filename stat? now f).1 = true →
      (should_archive filename stat? now f).2 = []) ∧
    ((should_archive filename stat? now f).1 = false →
      (should_archive filename stat? now f).2.length = 1) := by
  rcases should_archive_shape filename stat? now f with hs | ⟨r, hs⟩ <;> rw [hs]
  · exact ⟨fun _ => rfl, fun h => by simp at h⟩
  · exact ⟨fun h => by simp at h, fun _ => rfl⟩

/-- Witness for C8 amended: a rejected file emits exactly one event. -/
theorem one_event_per_rejection_witness :
    (should_archive "a.csv" (some ⟨100, 0, 0⟩) 0
        { extensions := some [".txt"] }).2.length = 1 :=
  (one_event_per_rejection "a.csv" (some ⟨100, 0, 0⟩) 0
      { extensions := some [".txt"] }).2 (by decide)

/-! ### Orchestrator loop lemmas -/

/-- The loop body is a homomorphism for state concatenation: what it adds
does not depend on the accumulated state. -/
theorem stepEntry_merge (now : Int) (f : FilterSet) (d : Bool)
    (a s : StepState) (e : Entry) :
    stepEntry now f d (a.merge s) e = a.merge (stepEntry now f d s e) := by
  rcases hv : should_archive e.name e.stat? now f with ⟨ok, evs⟩
  cases hf : e.isFile <;> cases d <;> cases ok <;> cases hm : e.moveOk <;>
    simp [stepEntry, hf, hv, hm, StepState.merge, FolderResult.add,
      Nat.add_assoc, List.append_assoc]

/-- Folding from a concatenated state concatenates the results. -/
theorem foldl_stepEntry_merge (now : Int) (f : FilterSet) (d : Bool)
    (l : List Entry) : ∀ a s : StepState,
    l.foldl (stepEntry now f d) (a.merge s) =
      a.merge (l.foldl (stepEntry now f d) s) := by
  induction l with
  | nil => intro a s; rfl
  | cons e l ih =>
    intro a s
    simp only [List.foldl_cons, stepEntry_merge, ih]

/-- `emptyState` is a right identity for state concatenation. -/
theorem merge_emptyState_right (s : StepState) : s.merge emptyState = s := by
  simp [StepState.merge, emptyState, FolderResult.add]

/-- Processing a concatenation of listings processes each part as if alone
and concatenates: no entry's outcome influences the entries after it. -/
theorem processEntries_append (now : Int) (f : FilterSet) (d : Bool)
    (xs ys : List Entry) :
    processEntries now f d (xs ++ ys) =
      (processEntries now f d xs).merge (processEntries now f d ys) := by
  unfold processEntries
  rw [List.foldl_append, ← merge_emptyState_right
    (xs.foldl (stepEntry now f d) emptyState), foldl_stepEntry_merge,
    merge_emptyState_right]

/-- Processing `e :: l` handles `e` from the empty state and prepends its
contribution. -/
theorem processEntries_cons (now : Int) (f : FilterSet) (d : Bool)
    (e : Entry) (l : List Entry) :
    processEntries now f d (e :: l) =
      (stepEntry now f d emptyState e).merge (processEntries now f d l) := by
  have h := processEntries_append now f d [e] l
  simpa [processEntries] using h

/-- In dry-run mode every regular file increments `processed` and nothing
else happens: no filter evaluation events, no moves. -/
theorem processEntries_dryRun (now : Int) (f : FilterSet) :
    ∀ l : List Entry,
    processEntries now f true l =
      ⟨⟨(l.filter (fun e => e.isFile)).length, 0, 0⟩, [], []⟩ := by
  intro l
  induction l with
  | nil => rfl
  | cons e l ih =>
    rw [processEntries_cons, ih]
    cases hf : e.isFile <;>
      simp [stepEntry, hf, emptyState, StepState.merge, FolderResult.add,
        List.filter_cons, Nat.add_comm]

/-- Each loop step adds one to exactly one counter for a regular file and
leaves the counters unchanged for anything else. -/
theorem stepEntry_empty_sum (now : Int) (f : FilterSet) (d : Bool)
    (e : Entry) :
    (stepEntry now f d emptyState e).res.processed +
      (stepEntry now f d emptyState e).res.skipped +
      (stepEntry now f d emptyState e).res.failed =
      (if e.isFile then 1 else 0) := by
  rcases hv : should_archive e.name e.stat? now f with ⟨ok, evs⟩
  cases hf : e.isFile <;> cases d <;> cases ok <;> cases hm : e.moveOk <;>
    simp [stepEntry, hf, hv, hm, emptyState]

/-- Sum of the three counters over a listing equals the number of regular
files in it. -/
theorem processEntries_sum (now : Int) (f : FilterSet) (d : Bool) :
    ∀ l : List Entry,
    (processEntries now f d l).res.processed +
      (processEntries now f d l).res.skipped +
      (processEntries now f d l).res.failed =
      (l.filter (fun e => e.isFile)).length := by
  intro l
  induction l with
  | nil => rfl
  | cons e l ih =>
    rw [processEntries_cons]
    have hs := stepEntry_empty_sum now f d e
    cases hf : e.isFile <;>
      rw [hf] at hs <;>
      simp only [StepState.merge, FolderResult.add, List.filter_cons, hf,
        if_true, if_false, List.length_cons, cond_true, cond_false] <;>
      simp at hs ⊢ <;> omega

/-! ### Concrete instances shared by the claim witnesses -/

/-- A filter set admitting exactly the ".txt" files. -/
def extTxtFilters : FilterSet := { extensions := some [".txt"] }

/-- A source listing with five regular files, of which `extTxtFilters`
admits three, plus one subdirectory. -/
def mixedEntries : List Entry :=
  [⟨"a.txt", true, some ⟨100, 0, 0⟩, true⟩,
   ⟨"b.txt", true, some ⟨200, 0, 0⟩, true⟩,
   ⟨"c.txt", true, some ⟨300, 0, 0⟩, true⟩,
   ⟨"d.csv", true, some ⟨400, 0, 0⟩, true⟩,
   ⟨"e.csv", true, some ⟨500, 0, 0⟩, true⟩,
   ⟨"sub", false, none, true⟩]

/-- A regular file whose move raises, admitted by the empty filter set. -/
def moveFailEntry : Entry := ⟨"m.txt", true, some ⟨10, 0, 0⟩, false⟩

/-- C1 as stated is false: in dry-run mode `archive_folder` never consults
the filters, so on a listing where the filters would admit 3 of 5 regular
files it reports `processed = 5`, the total number of regular files, not
3. -/
theorem dry_run_ignores_filters_counterexample :
    (mixedEntries.filter
      (fun e => (should_archive e.name e.stat? 0 extTxtFilters).1)).length
      = 3 ∧
    (archive_folder "src" "dst" (.present true mixedEntries) 0 extTxtFilters
        true).2.1 = some ⟨5, 0, 0⟩ ∧
    (5 : Nat) ≠ 3 :=
  ⟨by decide, by decide, by decide⟩

/-- C1 amended: in dry-run mode `archive_folder` leaves every file in place
(no file is moved; the destination-directory creation is the only
filesystem mutation in the model), and it reports `processed` equal to the
total number of regular-file direct children — the filters are not applied
in dry-run, so the count is not the number of files they would admit. -/
theorem dry_run_moves_nothing_counts_all (sourcePath archivePath : String)
    (now : Int) (f : FilterSet) (entries : List Entry) :
    ((archive_folder sourcePath archivePath (.present true entries) now f
        true).2.2.2 = []) ∧
    ((archive_folder sourcePath archivePath (.present true entries) now f
        true).2.1 =
      some ⟨(entries.filter (fun e => e.isFile)).length, 0, 0⟩) := by
  constructor <;> simp [archive_folder, processEntries_dryRun]

/-- C5: a completed folder run reports success exactly when `processed > 0`
or `failed = 0`; an all-skipped folder (`skipped > 0`, `processed = 0`,
`failed = 0`) reports success, and failure is reported only when at least
one file failed and none were archived. -/
theorem folder_success_predicate (sourcePath archivePath : String)
    (now : Int) (f : FilterSet) (d : Bool) (entries : List Entry)
    (r : FolderResult)
    (h : (archive_folder sourcePath archivePath (.present true entries) now
        f d).2.1 = some r) :
    ((archive_folder sourcePath archivePath (.present true entries) now f
        d).1 = true ↔ (0 < r.processed ∨ r.failed = 0)) ∧
    (0 < r.skipped → r.processed = 0 → r.failed = 0 →
      (archive_folder sourcePath archivePath (.present true entries) now f
        d).1 = true) ∧
    ((archive_folder sourcePath archivePath (.present true entries) now f
        d).1 = false → 0 < r.failed ∧ r.processed = 0) := by
  have hr : (processEntries now f d entries).res = r := by
    simpa [archive_folder] using h
  have hb : (archive_folder sourcePath archivePath (.present true entries)
      now f d).1 =
      (decide (0 < (processEntries now f d entries).res.processed) ||
        decide ((processEntries now f d entries).res.failed = 0)) := rfl
  rw [hb, hr]
  refine ⟨by simp, ?_, ?_⟩
  · intro h1 h2 h3
    simp [h3]
  · intro hfalse
    simp at hfalse
    omega

/-- Witness for C5: a folder whose only regular file is rejected by the
filters completes with `skipped = 1`, `processed = 0`, `failed = 0` and
still reports success. -/
theorem folder_success_predicate_witness :
    (archive_folder "src" "dst"
        (.present true [⟨"e.csv", true, some ⟨500, 0, 0⟩, true⟩]) 0
        extTxtFilters false).1 = true :=
  (folder_success_predicate "src" "dst" 0 extTxtFilters false
      [⟨"e.csv", true, some ⟨500, 0, 0⟩, true⟩] ⟨0, 1, 0⟩ (by decide)).2.1
    (by decide) (by decide) (by decide)

/-- C9: when an admitted regular file's move raises, the loop body charges
exactly one `failed`, emits exactly one FILE_MOVE FAILED event, moves
nothing — and every entry before and after it is processed exactly as it
would be on its own, so a single per-file error never aborts the folder. -/
theorem per_file_move_failure_isolated (now : Int) (f : FilterSet)
    (xs ys : List Entry) (e : Entry) (hf : e.isFile = true)
    (hm : e.moveOk = false)
    (ha : (should_archive e.name e.stat? now f).1 = true) :
    (stepEntry now f false emptyState e =
      ⟨⟨0, 0, 1⟩, [⟨"FILE_MOVE", e.name, .FAILED, none⟩], []⟩) ∧
    (processEntries now f false (xs ++ e :: ys) =
      (processEntries now f false xs).merge
        ((stepEntry now f false emptyState e).merge
          (processEntries now f false ys))) := by
  constructor
  · have hev := should_archive_admit_events e.name e.stat? now f ha
    simp [stepEntry, hf, hm, ha, hev, emptyState]
  · rw [processEntries_append, processEntries_cons]

/-- Witness for C9: a concrete admitted file whose move fails contributes
exactly one `failed` and one FAILED event, between two other files that are
processed normally. -/
theorem per_file_move_failure_isolated_witness :
    stepEntry 0 {} false emptyState moveFailEntry =
      ⟨⟨0, 0, 1⟩, [⟨"FILE_MOVE", moveFailEntry.name, .FAILED, none⟩], []⟩ ∧
    processEntries 0 {} false
        ([⟨"x.txt", true, some ⟨1, 0, 0⟩, true⟩] ++ moveFailEntry ::
          [⟨"y.txt", true, some ⟨2, 0, 0⟩, true⟩]) =
      (processEntries 0 {} false [⟨"x.txt", true, some ⟨1, 0, 0⟩, true⟩]).merge
        ((stepEntry 0 {} false emptyState moveFailEntry).merge
          (processEntries 0 {} false [⟨"y.txt", true, some ⟨2, 0, 0⟩, true⟩])) :=
  per_file_move_failure_isolated 0 {} [⟨"x.txt", true, some ⟨1, 0, 0⟩, true⟩]
    [⟨"y.txt", true, some ⟨2, 0, 0⟩, true⟩] moveFailEntry (by decide)
    (by decide) (by decide)

/-- C10: over a completed folder run the counters returned are those of the
per-file loop; each regular-file direct child increments exactly one of
`processed`, `skipped`, `failed`, so their sum equals the number of regular
files enumerated; every counter (a `Nat`, hence non-negative) is
non-decreasing along the loop, and non-file entries change nothing. -/
theorem folder_counters_partition (sourcePath archivePath : String)
    (now : Int) (f : FilterSet) (d : Bool) (entries : List Entry) :
    ((archive_folder sourcePath archivePath (.present true entries) now f
        d).2.1 = some (processEntries now f d entries).res) ∧
    ((processEntries now f d entries).res.processed +
      (processEntries now f d entries).res.skipped +
      (processEntries now f d entries).res.failed =
      (entries.filter (fun e => e.isFile)).length) ∧
    (∀ xs ys : List Entry, entries = xs ++ ys →
      (processEntries now f d xs).res.processed ≤
        (processEntries now f d entries).res.processed ∧
      (processEntries now f d xs).res.skipped ≤
        (processEntries now f d entries).res.skipped ∧
      (processEntries now f d xs).res.failed ≤
        (processEntries now f d entries).res.failed) ∧
    (∀ (acc : StepState) (e : Entry), e.isFile = false →
      stepEntry now f d acc e = acc) := by
  refine ⟨rfl, processEntries_sum now f d entries, ?_, ?_⟩
  · intro xs ys hsplit
    subst hsplit
    rw [processEntries_append]
    simp only [StepState.merge, FolderResult.add]
    exact ⟨Nat.le_add_right _ _, Nat.le_add_right _ _, Nat.le_add_right _ _⟩
  · intro acc e he
    simp [stepEntry, he]

/-- Witness for C10: on the mixed listing the counters sum to the five
regular files, and the counters after the first three entries are below the
final ones. -/
theorem folder_counters_partition_witness :
    (processEntries 0 extTxtFilters false
        (mixedEntries.take 3)).res.processed ≤
      (processEntries 0 extTxtFilters false mixedEntries).res.processed :=
  ((folder_counters_partition "src" "dst" 0 extTxtFilters false
      mixedEntries).2.2.1 (mixedEntries.take 3) (mixedEntries.drop 3)
    (by decide)).1

end PyArchiver
